import Mathlib

/-!
Verification of `public/docs/cors_server.py`, a small Python HTTP file server
with CORS headers.  The script subclasses `http.server.SimpleHTTPRequestHandler`,
overriding `end_headers` (CORS header injection), `do_OPTIONS` (preflight) and
`log_message` (log filtering), and a `__main__` block parses an optional port,
changes directory and serves via `socketserver.TCPServer`.

The embedding models the overridden methods directly from the source, and the
relevant behaviour of their CPython base classes (`BaseHTTPRequestHandler`,
`SimpleHTTPRequestHandler`, `socketserver.TCPServer`) as the external
collaborators they are: `send_response` buffers the `Server` and `Date` headers
and logs the request, `send_error` logs and builds an HTML error response,
method dispatch sends 501 for methods without a `do_` handler, and every
response path flushes its header buffer through `end_headers`.
-/

namespace CorsServer

/-- `strStarts hay needle` is true when `needle` is an initial segment of
`hay`; helper for the Python substring operator. -/
def strStarts : List Char → List Char → Bool
  | _, [] => true
  | [], _ :: _ => false
  | c :: cs, d :: ds => (c == d) && strStarts cs ds

/-- `strHasSub needle hay` scans `hay` for an occurrence of `needle`. -/
def strHasSub (needle : List Char) : List Char → Bool
  | [] => strStarts [] needle
  | c :: t => strStarts (c :: t) needle || strHasSub needle t

/-- Python's `needle in hay` on strings: substring containment (the empty
string is contained in every string). -/
def pyIn (needle hay : String) : Bool :=
  strHasSub needle.data hay.data

/-- Python values that flow into `log_message` in this program: the format
string and arguments are strings (`log_request` passes the request line and
stringified status/size) or ints (`log_error` passes the status code). -/
inductive PyVal
  | str (s : String)
  | int (n : Int)
deriving DecidableEq

/-- Exceptions the overridden `log_message` can raise. -/
inductive PyError
  | IndexError
  | TypeError
deriving DecidableEq

/-- Python `repr` for the values above (strings that contain no quote or
backslash, which is all that flows here, are rendered between single
quotes). -/
def pyRepr : PyVal → String
  | PyVal.str s => "\x27" ++ s ++ "\x27"
  | PyVal.int n => toString n

/-- Python `str` of a tuple of values, as produced by `str(args[1:])`:
elements are shown by `repr`, one-element tuples carry a trailing comma. -/
def pyStrTuple : List PyVal → String
  | [v] => "(" ++ pyRepr v ++ ",)"
  | vs => "(" ++ String.intercalate ", " (vs.map pyRepr) ++ ")"

/-- Python `needle in v` where `v` may not be a string: on an int it raises
`TypeError` (an int is not a container). -/
def pyInVal (needle : String) : PyVal → Except PyError Bool
  | PyVal.str s => Except.ok (pyIn needle s)
  | PyVal.int _ => Except.error PyError.TypeError

/-- `CORSHTTPRequestHandler.log_message(self, format, *args)` (lines 24-27):

    if "GET" in format and (".pdf" in args[0] or "200" in str(args[1:])):
        super().log_message(format, *args)

The base `log_message` writes exactly one log line per call, so the result is
the list of calls forwarded to it (zero or one), or the exception raised by
the condition: `args[0]` on an empty argument tuple raises `IndexError`, and
`".pdf" in args[0]` on an int argument raises `TypeError`.  Evaluation order
and short-circuiting follow Python's `and` / `or`. -/
def log_message (fmt : String) (args : List PyVal) :
    Except PyError (List (String × List PyVal)) :=
  if pyIn "GET" fmt then
    match args with
    | [] => Except.error PyError.IndexError
    | a0 :: rest =>
      match pyInVal ".pdf" a0 with
      | Except.error e => Except.error e
      | Except.ok true => Except.ok [(fmt, args)]
      | Except.ok false =>
        if pyIn "200" (pyStrTuple rest) then Except.ok [(fmt, args)]
        else Except.ok []
  else
    Except.ok []

/-- Log lines actually emitted for a list of `log_message` calls (in the
modelled request paths the filter condition never raises, so the error branch
is unreachable there). -/
def emittedLogs (calls : List (String × List PyVal)) :
    List (String × List PyVal) :=
  match calls with
  | [] => []
  | c :: rest =>
    (match log_message c.1 c.2 with
     | Except.ok ls => ls
     | Except.error _ => []) ++ emittedLogs rest

/-- The four CORS headers injected by `end_headers` (lines 13-17), in source
order. -/
def corsHeaders : List (String × String) :=
  [("Access-Control-Allow-Origin", "*"),
   ("Access-Control-Allow-Methods", "GET, POST, OPTIONS"),
   ("Access-Control-Allow-Headers", "*"),
   ("Access-Control-Allow-Credentials", "true")]

/-- `CORSHTTPRequestHandler.end_headers` (lines 12-18): four `send_header`
calls append the CORS headers to the header buffer accumulated so far, then
`super().end_headers()` flushes the buffer.  `send_header` only appends to
`_headers_buffer`; nothing is removed or replaced. -/
def end_headers (buf : List (String × String)) : List (String × String) :=
  buf ++ corsHeaders

/-- A file as the underlying static handler resolves it: content, the guessed
MIME type and the modification date. -/
structure FileInfo where
  content : String
  contentType : String
  lastModified : String
deriving DecidableEq

/-- Ambient handler state: the `Server` and `Date` header values the base
`send_response` emits, and the file system view used by path resolution
(`none` models every way `send_head` fails to produce a file). -/
structure Ctx where
  serverVersion : String
  dateTime : String
  fs : String → Option FileInfo

/-- An HTTP response: status, headers in emission order, body. -/
structure Response where
  status : Nat
  headers : List (String × String)
  body : String
deriving DecidableEq

/-- Result of handling one request: the response plus the `log_message`
calls made while producing it, in order. -/
structure HandlerOutput where
  response : Response
  logCalls : List (String × List PyVal)
deriving DecidableEq

/-- `BaseHTTPRequestHandler.log_request`, called by `send_response`:
`self.log_message('"%s" %s %s', self.requestline, str(code), str(size))`
with the default size `'-'`. -/
def logRequestCall (requestline : String) (code : Nat) :
    String × List PyVal :=
  ("\"%s\" %s %s",
   [PyVal.str requestline, PyVal.str (toString code), PyVal.str "-"])

/-- Headers buffered by `BaseHTTPRequestHandler.send_response`: `Server` and
`Date`. -/
def sendResponseHeaders (ctx : Ctx) : List (String × String) :=
  [("Server", ctx.serverVersion), ("Date", ctx.dateTime)]

/-- Body of the error page built by `BaseHTTPRequestHandler.send_error`.
CPython expands an HTML template; it is abbreviated here to its variable
parts (code and message), which is all the claims observe (presence of a
body and its length accounting). -/
def errorBody (code : Nat) (message : String) : String :=
  "Error response: code " ++ toString code ++ ", message " ++ message

/-- `BaseHTTPRequestHandler.send_error(code, message)`: logs via
`log_error("code %d, message %s", code, message)`, then `send_response`
(which logs the request and buffers `Server`/`Date`), buffers
`Connection: close`, `Content-Type` and `Content-Length`, flushes through
the overridden `end_headers`, and writes the HTML body unless the request
method was `HEAD`. -/
def send_error (ctx : Ctx) (requestline : String) (code : Nat)
    (message : String) (isHEAD : Bool) : HandlerOutput :=
  let body := errorBody code message
  { response :=
      { status := code,
        headers := end_headers (sendResponseHeaders ctx ++
          [("Connection", "close"),
           ("Content-Type", "text/html;charset=utf-8"),
           ("Content-Length", toString body.length)]),
        body := if isHEAD then "" else body },
    logCalls :=
      [("code %d, message %s", [PyVal.int code, PyVal.str message]),
       logRequestCall requestline code] }

/-- `CORSHTTPRequestHandler.do_OPTIONS` (lines 20-22): `send_response(200)`
followed by `end_headers()`; nothing is written, so the body is empty, and
the file system is never touched. -/
def do_OPTIONS (ctx : Ctx) (requestline : String) : HandlerOutput :=
  { response :=
      { status := 200,
        headers := end_headers (sendResponseHeaders ctx),
        body := "" },
    logCalls := [logRequestCall requestline 200] }

/-- `SimpleHTTPRequestHandler.send_head` success path: `send_response(200)`,
`Content-type`, `Content-Length` and `Last-Modified` headers (source casing),
`end_headers`, and for `GET` the file contents as body. -/
def fileOutput (ctx : Ctx) (requestline : String) (fi : FileInfo)
    (includeBody : Bool) : HandlerOutput :=
  { response :=
      { status := 200,
        headers := end_headers (sendResponseHeaders ctx ++
          [("Content-type", fi.contentType),
           ("Content-Length", toString fi.content.length),
           ("Last-Modified", fi.lastModified)]),
        body := if includeBody then fi.content else "" },
    logCalls := [logRequestCall requestline 200] }

/-- `SimpleHTTPRequestHandler.do_GET`: resolve the path; serve the file with
its contents on success, else `send_error(404, "File not found")`. -/
def do_GET (ctx : Ctx) (path requestline : String) : HandlerOutput :=
  match ctx.fs path with
  | some fi => fileOutput ctx requestline fi true
  | none => send_error ctx requestline 404 "File not found" false

/-- `SimpleHTTPRequestHandler.do_HEAD`: as `do_GET` but no body is written
(`send_error` also suppresses the body for `HEAD`). -/
def do_HEAD (ctx : Ctx) (path requestline : String) : HandlerOutput :=
  match ctx.fs path with
  | some fi => fileOutput ctx requestline fi false
  | none => send_error ctx requestline 404 "File not found" true

/-- `BaseHTTPRequestHandler.handle_one_request` dispatch: a request for
method `m` is handled by `do_m` when it exists — `do_GET` and `do_HEAD` from
`SimpleHTTPRequestHandler`, `do_OPTIONS` from the subclass — and any other
method gets `send_error(501, "Unsupported method ('m')")`. -/
def handle_one_request (ctx : Ctx) (method path requestline : String) :
    HandlerOutput :=
  if method = "OPTIONS" then do_OPTIONS ctx requestline
  else if method = "GET" then do_GET ctx path requestline
  else if method = "HEAD" then do_HEAD ctx path requestline
  else
    send_error ctx requestline 501
      ("Unsupported method (\x27" ++ method ++ "\x27)") false

/-- Decimal value of a digit list. -/
def digitsVal (ds : List Char) : Nat :=
  ds.foldl (fun a c => 10 * a + (c.toNat - 48)) 0

/-- ASCII whitespace as Python's `int()` strips it. -/
def isPySpace (c : Char) : Bool :=
  c == ' ' || c == '\t' || c == '\n' || c == '\r' || c == '\x0b' || c == '\x0c'

/-- Drop leading whitespace. -/
def dropSpaces : List Char → List Char
  | [] => []
  | c :: t => if isPySpace c then dropSpaces t else c :: t

/-- Strip whitespace from both ends. -/
def pyStrip (l : List Char) : List Char :=
  (dropSpaces (dropSpaces l).reverse).reverse

/-- Python's `int()` on a decimal string, as used by `int(sys.argv[1])`
(line 33): surrounding whitespace is stripped, an optional single `+` or `-`
sign precedes a nonempty run of digits; anything else raises `ValueError`
(`none`).  CPython additionally accepts underscore digit grouping and
non-ASCII digits, which no claim exercises and which are not modelled. -/
def pyInt (s : String) : Option Int :=
  let t := pyStrip s.data
  let sd : Int × List Char :=
    match t with
    | c :: rest =>
      if c == '+' then (1, rest)
      else if c == '-' then (-1, rest)
      else (1, t)
    | [] => (1, [])
  if !sd.2.isEmpty && sd.2.all Char.isDigit then
    some (sd.1 * (digitsVal sd.2 : Int))
  else none

/-- Observable startup events of the `__main__` block, in order: the
`os.chdir` to the script's directory (line 38), the bind attempt made by
constructing `socketserver.TCPServer` (line 40), and lines printed to
stdout. -/
inductive Event
  | chdirScriptDir
  | bindAttempt (port : Int)
  | printLine (s : String)
deriving DecidableEq

/-- Outcome of running the `__main__` block up to the serve loop:
the events in order, and `some n` when the process exits with status `n`
(an uncaught `ValueError` or `OSError` exits with status 1), or `none` when
it reaches `serve_forever` and is serving. -/
structure MainRun where
  events : List Event
  exitCode : Option Nat
deriving DecidableEq

/-- Port selection of lines 32-35: `int(sys.argv[1])` when an argument is
given, else the default 8080. -/
def parsePort : List String → Option Int
  | [] => some 8080
  | a :: _ => pyInt a

/-- The `__main__` block (lines 29-47), over the command-line arguments after
the script name and the environment's answer to a bind attempt.  A
non-integer argument raises `ValueError` before `os.chdir` and before any
socket exists; a failing bind raises `OSError` out of the `TCPServer`
constructor after the single bind attempt, before any of the three banner
lines is printed; on success the banner is printed and `serve_forever`
runs.  Nothing catches either exception, there is no retry and no fallback
port. -/
def pymain (args : List String) (bindOk : Int → Bool) : MainRun :=
  match parsePort args with
  | none => { events := [], exitCode := some 1 }
  | some p =>
    if bindOk p then
      { events :=
          [Event.chdirScriptDir, Event.bindAttempt p,
           Event.printLine ("Serving with CORS on port " ++ toString p),
           Event.printLine
             ("Files available at: http://localhost:" ++ toString p ++ "/"),
           Event.printLine "Press Ctrl+C to stop"],
        exitCode := none }
    else
      { events := [Event.chdirScriptDir, Event.bindAttempt p],
        exitCode := some 1 }

/-- The ports for which a bind was attempted, in order. -/
def bindAttempts (r : MainRun) : List Int :=
  r.events.filterMap (fun e =>
    match e with
    | Event.bindAttempt p => some p
    | _ => none)

/-- A `socketserver` server class, reduced to the one class attribute the
claims observe: whether `server_bind` sets `SO_REUSEADDR`. -/
structure TCPServerClass where
  allow_reuse_address : Bool
deriving DecidableEq

/-- CPython `socketserver.TCPServer`: class attribute
`allow_reuse_address = False`. -/
def socketserver_TCPServer : TCPServerClass :=
  { allow_reuse_address := false }

/-- CPython `http.server.HTTPServer` overrides `allow_reuse_address = 1`;
the script does not use this class. -/
def http_server_HTTPServer : TCPServerClass :=
  { allow_reuse_address := true }

/-- The server class instantiated at line 40 of the script:
`socketserver.TCPServer`. -/
def serverClassUsed : TCPServerClass :=
  socketserver_TCPServer

/-- A concrete environment for evaluation: the root holds one file,
`/sample.pdf`. -/
def sampleCtx : Ctx :=
  { serverVersion := "SimpleHTTP/0.6 Python/3.12.0",
    dateTime := "Wed, 01 Jan 2025 00:00:00 GMT",
    fs := fun p =>
      if p = "/sample.pdf" then
        some { content := "%PDF-1.4 sample",
               contentType := "application/pdf",
               lastModified := "Wed, 01 Jan 2025 00:00:00 GMT" }
      else none }

/-- Every CORS header survives the flush: `end_headers` only appends. -/
lemma mem_end_headers_of_mem_cors (buf : List (String × String))
    (h : String × String) (hh : h ∈ corsHeaders) : h ∈ end_headers buf := by
  unfold end_headers
  exact List.mem_append_right _ hh

/-- C1: every HTTP response the handler produces — any method (handled or
501), any path, any file-system contents, any status including 404 — carries
the four CORS headers with their exact values. -/
theorem cors_headers_on_every_response (ctx : Ctx) (method path rl : String) :
    ("Access-Control-Allow-Origin", "*")
        ∈ (handle_one_request ctx method path rl).response.headers ∧
    ("Access-Control-Allow-Methods", "GET, POST, OPTIONS")
        ∈ (handle_one_request ctx method path rl).response.headers ∧
    ("Access-Control-Allow-Headers", "*")
        ∈ (handle_one_request ctx method path rl).response.headers ∧
    ("Access-Control-Allow-Credentials", "true")
        ∈ (handle_one_request ctx method path rl).response.headers := by
  have key : ∀ h ∈ corsHeaders,
      h ∈ (handle_one_request ctx method path rl).response.headers := by
    intro h hh
    unfold handle_one_request do_OPTIONS do_GET do_HEAD fileOutput send_error
    split
    · exact mem_end_headers_of_mem_cors _ _ hh
    · split
      · cases hfs : ctx.fs path <;> simp only [hfs] <;>
          exact mem_end_headers_of_mem_cors _ _ hh
      · split
        · cases hfs : ctx.fs path <;> simp only [hfs] <;>
            exact mem_end_headers_of_mem_cors _ _ hh
        · exact mem_end_headers_of_mem_cors _ _ hh
  exact ⟨key _ (by simp [corsHeaders]), key _ (by simp [corsHeaders]),
    key _ (by simp [corsHeaders]), key _ (by simp [corsHeaders])⟩

/-- C2: an `OPTIONS` request, whatever its path, yields status 200, an empty
body and the four CORS headers, and the outcome is the same for every file
system — no static-file path resolution is attempted. -/
theorem options_preflight_no_fs (ctx : Ctx) (path rl : String) :
    (handle_one_request ctx "OPTIONS" path rl).response.status = 200 ∧
    (handle_one_request ctx "OPTIONS" path rl).response.body = "" ∧
    (∀ h ∈ corsHeaders,
      h ∈ (handle_one_request ctx "OPTIONS" path rl).response.headers) ∧
    (∀ fs2 : String → Option FileInfo,
      handle_one_request { ctx with fs := fs2 } "OPTIONS" path rl =
        handle_one_request ctx "OPTIONS" path rl) := by
  refine ⟨rfl, rfl, ?_, fun fs2 => rfl⟩
  intro h hh
  exact mem_end_headers_of_mem_cors _ _ hh

/-- C3 (code bug): a successful `GET` of `/sample.pdf` makes exactly the
standard `log_request` call with format `"%s" %s %s` and the request line in
`args[0]`, yet the filter emits nothing: `"GET" in format` tests the format
template, which never contains `GET`, not the request line — even though
the request line contains both `GET` and `.pdf`. -/
theorem get_pdf_200_logs_nothing :
    (handle_one_request sampleCtx "GET" "/sample.pdf"
        "GET /sample.pdf HTTP/1.1").response.status = 200 ∧
    (handle_one_request sampleCtx "GET" "/sample.pdf"
        "GET /sample.pdf HTTP/1.1").logCalls =
      [("\"%s\" %s %s",
        [PyVal.str "GET /sample.pdf HTTP/1.1", PyVal.str "200",
         PyVal.str "-"])] ∧
    emittedLogs (handle_one_request sampleCtx "GET" "/sample.pdf"
        "GET /sample.pdf HTTP/1.1").logCalls = [] ∧
    pyIn "GET" "GET /sample.pdf HTTP/1.1" = true ∧
    pyIn ".pdf" "GET /sample.pdf HTTP/1.1" = true ∧
    pyIn "GET" "\"%s\" %s %s" = false := by
  decide

/-- C4 counterexample: the listener class the script instantiates does not
have allow-address-reuse behaviour. -/
theorem server_class_no_reuse_counterexample :
    ¬ serverClassUsed.allow_reuse_address = true := by
  decide

/-- C4 (amended): the script builds its listener from
`socketserver.TCPServer`, whose `allow_reuse_address` is `False`, so
`SO_REUSEADDR` is not set; `http.server.HTTPServer`, which the script does
not use, is the class that enables it. -/
theorem server_class_reuse_not_enabled :
    serverClassUsed = socketserver_TCPServer ∧
    serverClassUsed.allow_reuse_address = false ∧
    http_server_HTTPServer.allow_reuse_address = true := by
  decide

/-- C5 counterexample: when the header buffer already carries
`Access-Control-Allow-Origin: null`, flushing through `end_headers` keeps the
pre-set value alongside the injected `*` — the header does not appear with
exactly the injected value. -/
theorem end_headers_keeps_preset_counterexample :
    ("Access-Control-Allow-Origin", "null")
        ∈ end_headers [("Access-Control-Allow-Origin", "null")] ∧
    ("Access-Control-Allow-Origin", "*")
        ∈ end_headers [("Access-Control-Allow-Origin", "null")] := by
  decide

/-- C5 (amended): `end_headers` appends the four CORS headers after whatever
the underlying handler already buffered, replacing nothing. -/
theorem end_headers_appends (buf : List (String × String)) :
    end_headers buf = buf ++ corsHeaders :=
  rfl

/-- C6: when the parsed port cannot be bound, the run is exactly one chdir
and one bind attempt followed by exit status 1 — no banner line is printed,
no other port is tried. -/
theorem bind_failure_fails_fast (args : List String) (bindOk : Int → Bool)
    (p : Int) (hp : parsePort args = some p) (hb : bindOk p = false) :
    pymain args bindOk =
      { events := [Event.chdirScriptDir, Event.bindAttempt p],
        exitCode := some 1 } ∧
    (∀ s, Event.printLine s ∉ (pymain args bindOk).events) ∧
    bindAttempts (pymain args bindOk) = [p] := by
  have hmain : pymain args bindOk =
      { events := [Event.chdirScriptDir, Event.bindAttempt p],
        exitCode := some 1 } := by
    unfold pymain
    rw [hp]
    simp [hb]
  refine ⟨hmain, ?_, ?_⟩
  · intro s
    rw [hmain]
    simp
  · rw [hmain]
    rfl

/-- C6 witness: a concrete run where port 8080 cannot be bound. -/
theorem bind_failure_fails_fast_witness :
    pymain ["8080"] (fun _ => false) =
      { events := [Event.chdirScriptDir, Event.bindAttempt 8080],
        exitCode := some 1 } :=
  (bind_failure_fails_fast ["8080"] (fun _ => false) 8080 (by decide) rfl).1

/-- C7: a port argument `int()` rejects makes the process exit with status 1
before anything happens — no chdir, no bind attempt, no print, and in
particular no fallback to the default port. -/
theorem bad_port_arg_fails_before_bind (a : String) (rest : List String)
    (bindOk : Int → Bool) (h : pyInt a = none) :
    pymain (a :: rest) bindOk = { events := [], exitCode := some 1 } ∧
    bindAttempts (pymain (a :: rest) bindOk) = [] := by
  have hp : parsePort (a :: rest) = none := by
    rw [show parsePort (a :: rest) = pyInt a from rfl, h]
  have hmain : pymain (a :: rest) bindOk =
      { events := [], exitCode := some 1 } := by
    unfold pymain
    rw [hp]
  exact ⟨hmain, by rw [hmain]; rfl⟩

/-- C7 witness: a concrete non-numeric argument. -/
theorem bad_port_arg_fails_before_bind_witness :
    pymain ["abc"] (fun _ => true) = { events := [], exitCode := some 1 } :=
  (bad_port_arg_fails_before_bind "abc" [] (fun _ => true) (by decide)).1

/-- C8: with no argument the one bind attempt is on port 8080; with argument
`9090` the one bind attempt is on port 9090 — whatever the bind outcome and
the remaining arguments. -/
theorem default_and_explicit_port (bindOk : Int → Bool)
    (rest : List String) :
    bindAttempts (pymain [] bindOk) = [8080] ∧
    bindAttempts (pymain ("9090" :: rest) bindOk) = [9090] := by
  constructor
  · unfold pymain
    rw [show parsePort [] = some 8080 from rfl]
    cases h : bindOk 8080 <;> simp [h, bindAttempts]
  · unfold pymain
    rw [show parsePort ("9090" :: rest) = some 9090 from rfl]
    cases h : bindOk 9090 <;> simp [h, bindAttempts]

/-- C9: the overridden `log_message` is partial at its interface — whenever
the format string contains `GET`, an empty argument tuple makes `args[0]`
raise `IndexError`, and an int first argument makes `".pdf" in args[0]`
raise `TypeError`; nothing is logged or suppressed silently. -/
theorem log_message_raises :
    (∀ fmt : String, pyIn "GET" fmt = true →
      log_message fmt [] = Except.error PyError.IndexError) ∧
    (∀ (fmt : String) (n : Int) (rest : List PyVal),
      pyIn "GET" fmt = true →
      log_message fmt (PyVal.int n :: rest) =
        Except.error PyError.TypeError) := by
  constructor
  · intro fmt hf
    unfold log_message
    rw [hf]
    rfl
  · intro fmt n rest hf
    unfold log_message
    rw [hf]
    rfl

/-- C9 witness: concrete calls exhibiting both exceptions. -/
theorem log_message_raises_witness :
    log_message "GET" [] = Except.error PyError.IndexError ∧
    log_message "GET" [PyVal.int 404] = Except.error PyError.TypeError :=
  ⟨log_message_raises.1 "GET" (by decide),
   log_message_raises.2 "GET" 404 [] (by decide)⟩

/-- C10: `int()` accepts signed and whitespace-padded input, so a
non-positive port such as `-1` passes argument parsing and reaches the bind
attempt; only the bind outcome decides whether the run fails. -/
theorem int_parse_accepts_nonpositive (bindOk : Int → Bool) :
    pyInt "-1" = some (-1) ∧
    pyInt " 9090 " = some 9090 ∧
    pyInt "+8080" = some 8080 ∧
    bindAttempts (pymain ["-1"] bindOk) = [-1] ∧
    (pymain ["-1"] bindOk).exitCode =
      (if bindOk (-1) then none else some 1) := by
  refine ⟨by decide, by decide, by decide, ?_, ?_⟩
  · unfold pymain
    rw [show parsePort ["-1"] = some (-1) from by decide]
    cases h : bindOk (-1) <;> simp [h, bindAttempts]
  · unfold pymain
    rw [show parsePort ["-1"] = some (-1) from by decide]
    cases h : bindOk (-1) <;> simp [h]

end CorsServer
